import Mathlib

/-!
Verification development for the PyPGKit repository.

The SQL-building layer of `psycopg.sql` is modelled by an abstract syntax
tree `Sql` whose `render` function produces the final query text exactly as
`as_string` would: identifiers are double-quoted (with internal quotes
doubled), `Literal` values are inlined as text, `Placeholder`/`%s` markers
stay in the text while the bound values travel separately in a parameter
list.  Each query-building method of `BaseRepository`, `SchemaManager` and
`MigrationManager` is translated to a Lean function returning the composed
query (and its parameter list), and the stateful operations (connection
pool singleton, migrations, batch insert) are translated to explicit
state-passing functions.
-/

namespace PyPGKit

/-- `psycopg.sql.Identifier.as_string`: wrap in double quotes, doubling any
embedded double quote (the single-character replace is written out over
the character list). -/
def quoteIdent (s : String) : String :=
  "\"" ++
    String.mk ((s.data.map (fun c => if c = ('"') then [c, c] else [c])).flatten)
    ++ "\""

/-- Composable SQL fragments, mirroring `psycopg.sql`:
`raw` is fixed program text from `sql.SQL(...)` templates (including `%s`
placeholders), `ident` is `sql.Identifier(...)`, `lit` is
`sql.Literal(...)` for the integer limit/offset arguments, and `seq` is the
concatenation performed by `.format(...)`. -/
inductive Sql where
  | raw : String → Sql
  | ident : String → Sql
  | lit : Int → Sql
  | seq : Sql → Sql → Sql
deriving DecidableEq

/-- Render a composed fragment to the query text sent to the server. -/
def Sql.render : Sql → String
  | .raw s => s
  | .ident s => quoteIdent s
  | .lit n => toString n
  | .seq a b => a.render ++ b.render

/-- `sql.SQL(sep).join(parts)`. -/
def sqlJoin (sep : String) : List Sql → Sql
  | [] => .raw ("")
  | [p] => p
  | p :: q :: rest => .seq p (.seq (.raw sep) (sqlJoin sep (q :: rest)))

/-- Separator-joined concatenation of plain strings (`sep.join(parts)`),
used to state rendered-query characterisations. -/
def sepConcat (sep : String) : List String → String
  | [] => ""
  | [s] => s
  | s :: t :: rest => s ++ (sep ++ sepConcat sep (t :: rest))

/-- `BaseRepository._qualified_table`:
`sql.SQL("{}.{}").format(Identifier(schema), Identifier(table))`. -/
def qualified_table (schema tbl : String) : Sql :=
  .seq (.ident schema) (.seq (.raw (".")) (.ident tbl))

/-- Errors of the package (`pypgkit.exceptions`) together with underlying
driver errors; `repositoryError msg e` is `raise RepositoryError(msg) from e`
(the cause chain), `repositoryErrorNoCause msg` is a `RepositoryError`
raised directly without a cause. -/
inductive PgErr where
  | repositoryError : String → PgErr → PgErr
  | repositoryErrorNoCause : String → PgErr
  | databaseConnectionError : String → PgErr
  | driverError : String → PgErr
deriving DecidableEq

namespace BaseRepository

/-- One `WHERE` predicate of the `conditions` loop shared by `find_by`,
`delete_by` and `count`: a `None` value yields `{} IS NULL`, any other
value yields `{} = %s`. -/
def cond_sql (V : Type) : String × Option V → Sql
  | (column, none) => .seq (.ident column) (.raw (" IS NULL"))
  | (column, some _) => .seq (.ident column) (.raw (" = %s"))

/-- The parameter values collected by the `conditions` loop: the non-`None`
values, in iteration order. -/
def cond_values (V : Type) (conds : List (String × Option V)) : List V :=
  conds.filterMap Prod.snd

/-- Rendered text of one condition predicate, for stating theorems. -/
def cond_text (V : Type) : String × Option V → String
  | (column, none) => quoteIdent column ++ " IS NULL"
  | (column, some _) => quoteIdent column ++ " = %s"

/-- `BaseRepository.find_by_id`: query and bound parameters. -/
def find_by_id (V : Type) (schema tbl pk : String) (id_value : V) :
    Sql × List V :=
  (.seq (.raw ("SELECT * FROM "))
    (.seq (qualified_table schema tbl)
      (.seq (.raw (" WHERE ")) (.seq (.ident pk) (.raw (" = %s"))))),
   [id_value])

/-- The optional `ORDER BY` part appended by `find_all` and `find_by`. -/
def order_part (order_by : Option String) (order_desc : Bool) : List Sql :=
  match order_by with
  | some ob =>
      [.seq (.raw ("ORDER BY "))
        (.seq (.ident ob)
          (.seq (.raw (" ")) (if order_desc then .raw ("DESC") else .raw ("ASC"))))]
  | none => []

/-- The optional `LIMIT` part: `sql.SQL("LIMIT {}").format(sql.Literal(limit))`,
inlining the value as a literal. -/
def limit_part (limit : Option Int) : List Sql :=
  match limit with
  | some n => [.seq (.raw ("LIMIT ")) (.lit n)]
  | none => []

/-- The optional `OFFSET` part: `sql.SQL("OFFSET {}").format(sql.Literal(offset))`. -/
def offset_part (offset : Option Int) : List Sql :=
  match offset with
  | some n => [.seq (.raw ("OFFSET ")) (.lit n)]
  | none => []

/-- `BaseRepository.find_all`: parts `SELECT`, optional `ORDER BY`,
optional `LIMIT`, optional `OFFSET`, joined by a space; `fetch_all` is
called without parameters. -/
def find_all (V : Type) (schema tbl : String) (limit offset : Option Int)
    (order_by : Option String) (order_desc : Bool) : Sql × List V :=
  (sqlJoin (" ")
    ([.seq (.raw ("SELECT * FROM ")) (qualified_table schema tbl)]
      ++ order_part order_by order_desc
      ++ limit_part limit ++ offset_part offset),
   [])

/-- `BaseRepository.find_by`: empty conditions delegate to `find_all`;
otherwise the `AND`-joined predicates form the `WHERE` clause and the
non-`None` condition values are the bound parameters. -/
def find_by (V : Type) (schema tbl : String) (conds : List (String × Option V))
    (limit offset : Option Int) (order_by : Option String) (order_desc : Bool) :
    Sql × List V :=
  if conds.isEmpty then
    find_all V schema tbl limit offset order_by order_desc
  else
    (sqlJoin (" ")
      ([.seq (.raw ("SELECT * FROM "))
          (.seq (qualified_table schema tbl)
            (.seq (.raw (" WHERE ")) (sqlJoin (" AND ") (conds.map (cond_sql V)))))]
        ++ order_part order_by order_desc
        ++ limit_part limit ++ offset_part offset),
     cond_values V conds)

/-- The `INSERT` query shared by `create` and `create_many`:
`INSERT INTO {} ({}) VALUES ({}) RETURNING *` with quoted column
identifiers and one `%s` placeholder per column. -/
def insert_query (schema tbl : String) (columns : List String) : Sql :=
  .seq (.raw ("INSERT INTO "))
    (.seq (qualified_table schema tbl)
      (.seq (.raw (" ("))
        (.seq (sqlJoin (", ") (columns.map Sql.ident))
          (.seq (.raw (") VALUES ("))
            (.seq (sqlJoin (", ") (columns.map (fun _ => .raw ("%s"))))
              (.raw (") RETURNING *")))))))

/-- `BaseRepository.create`: query built from the converted row columns,
parameters are the row values. -/
def create (V : Type) (schema tbl : String) (row : List (String × V)) :
    Sql × List V :=
  (insert_query schema tbl (row.map Prod.fst), row.map Prod.snd)

/-- `row.pop(primary_key)` value lookup on the converted row (a dict, so
keys are unique; the first match is the match). -/
def lookup_key (V : Type) (pk : String) (row : List (String × V)) : Option V :=
  (row.find? (fun p => p.1 == pk)).map Prod.snd

/-- The converted row after `row.pop(primary_key)` removed the key. -/
def pop_key (V : Type) (pk : String) (row : List (String × V)) :
    List (String × V) :=
  row.filter (fun p => !(p.1 == pk))

/-- The `UPDATE` query of `BaseRepository.update`:
`UPDATE {} SET {} WHERE {} = %s RETURNING *` with the `SET` clause built
from the given columns and the primary key in the `WHERE` clause. -/
def update_query (schema tbl pk : String) (columns : List String) : Sql :=
  .seq (.raw ("UPDATE "))
    (.seq (qualified_table schema tbl)
      (.seq (.raw (" SET "))
        (.seq (sqlJoin (", ")
            (columns.map (fun c => .seq (.ident c) (.raw (" = %s")))))
          (.seq (.raw (" WHERE ")) (.seq (.ident pk) (.raw (" = %s RETURNING *")))))))

/-- Query-building step of `BaseRepository.update`: `none` when the
primary key is absent from the converted row, otherwise the query together
with the parameters `(*values, pk_value)`. -/
def update (V : Type) (schema tbl pk : String) (row : List (String × V)) :
    Option (Sql × List V) :=
  match lookup_key V pk row with
  | none => none
  | some pk_value =>
      some (update_query schema tbl pk ((pop_key V pk row).map Prod.fst),
            (pop_key V pk row).map Prod.snd ++ [pk_value])

/-- Full control flow of `BaseRepository.update` against a `fetch_one`
oracle: missing primary key and no-row-matched both fail with
`RepositoryError`. -/
def update_run (V : Type) (schema tbl pk : String) (row : List (String × V))
    (fetch_one : Sql → List V → Option (List (String × V))) :
    Except PgErr (List (String × V)) :=
  match update V schema tbl pk row with
  | none =>
      .error (.repositoryErrorNoCause ("Entity must have " ++ pk ++ " for update"))
  | some qp =>
      match fetch_one qp.1 qp.2 with
      | none =>
          .error (.repositoryErrorNoCause ("Entity with " ++ pk ++ " not found"))
      | some r => .ok r

/-- `BaseRepository.delete`: query and bound parameters. -/
def delete (V : Type) (schema tbl pk : String) (id_value : V) : Sql × List V :=
  (.seq (.raw ("DELETE FROM "))
    (.seq (qualified_table schema tbl)
      (.seq (.raw (" WHERE ")) (.seq (.ident pk) (.raw (" = %s"))))),
   [id_value])

/-- The `DELETE` query built by `BaseRepository.delete_by` for non-empty
conditions. -/
def delete_by_query (V : Type) (schema tbl : String)
    (conds : List (String × Option V)) : Sql × List V :=
  (.seq (.raw ("DELETE FROM "))
    (.seq (qualified_table schema tbl)
      (.seq (.raw (" WHERE ")) (sqlJoin (" AND ") (conds.map (cond_sql V))))),
   cond_values V conds)

/-- `BaseRepository.count`: `conditions` is optional and an empty dict is
falsy, so both cases take the unfiltered branch. -/
def count (V : Type) (schema tbl : String) (conds : List (String × Option V)) :
    Sql × List V :=
  if conds.isEmpty then
    (.seq (.raw ("SELECT COUNT(*) FROM ")) (qualified_table schema tbl), [])
  else
    (.seq (.raw ("SELECT COUNT(*) FROM "))
      (.seq (qualified_table schema tbl)
        (.seq (.raw (" WHERE ")) (sqlJoin (" AND ") (conds.map (cond_sql V))))),
     cond_values V conds)

/-- `BaseRepository.exists`: query and bound parameters. -/
def exists_q (V : Type) (schema tbl pk : String) (id_value : V) : Sql × List V :=
  (.seq (.raw ("SELECT EXISTS(SELECT 1 FROM "))
    (.seq (qualified_table schema tbl)
      (.seq (.raw (" WHERE ")) (.seq (.ident pk) (.raw (" = %s)"))))),
   [id_value])

/-- The `try/except Exception as e: raise RepositoryError(msg) from e`
skeleton used by `find_by_id`, `find_all`, `find_by`, `create_many`,
`delete`, `delete_by`, `count` and `exists`: every escaping error —
including a `RepositoryError` — is wrapped in a new `RepositoryError`
carrying it as cause. -/
def wrap_all (A : Type) (msg : String) (body : Except PgErr A) :
    Except PgErr A :=
  match body with
  | .ok a => .ok a
  | .error e => .error (.repositoryError msg e)

/-- The `try/except RepositoryError: raise/except Exception as e: ...`
skeleton used by `create` and `update`: an escaping `RepositoryError`
propagates unchanged, everything else is wrapped. -/
def wrap_keep_repo (A : Type) (msg : String) (body : Except PgErr A) :
    Except PgErr A :=
  match body with
  | .ok a => .ok a
  | .error (.repositoryError m c) => .error (.repositoryError m c)
  | .error (.repositoryErrorNoCause m) => .error (.repositoryErrorNoCause m)
  | .error e => .error (.repositoryError msg e)

/-- Error handling of `BaseRepository.find_by_id`. -/
def find_by_id_catch (A : Type) (body : Except PgErr A) : Except PgErr A :=
  wrap_all A ("Failed to find by id") body

/-- Error handling of `BaseRepository.find_all`. -/
def find_all_catch (A : Type) (body : Except PgErr A) : Except PgErr A :=
  wrap_all A ("Failed to find all") body

/-- Error handling of `BaseRepository.find_by`. -/
def find_by_catch (A : Type) (body : Except PgErr A) : Except PgErr A :=
  wrap_all A ("Failed to find by conditions") body

/-- Error handling of `BaseRepository.create`. -/
def create_catch (A : Type) (body : Except PgErr A) : Except PgErr A :=
  wrap_keep_repo A ("Failed to create entity") body

/-- Error handling of `BaseRepository.create_many`. -/
def create_many_catch (A : Type) (body : Except PgErr A) : Except PgErr A :=
  wrap_all A ("Failed to create entities") body

/-- Error handling of `BaseRepository.update`. -/
def update_catch (A : Type) (body : Except PgErr A) : Except PgErr A :=
  wrap_keep_repo A ("Failed to update entity") body

/-- Error handling of `BaseRepository.delete`. -/
def delete_catch (A : Type) (body : Except PgErr A) : Except PgErr A :=
  wrap_all A ("Failed to delete entity") body

/-- Error handling of `BaseRepository.delete_by`. -/
def delete_by_catch (A : Type) (body : Except PgErr A) : Except PgErr A :=
  wrap_all A ("Failed to delete by conditions") body

/-- Error handling of `BaseRepository.count`. -/
def count_catch (A : Type) (body : Except PgErr A) : Except PgErr A :=
  wrap_all A ("Failed to count") body

/-- Error handling of `BaseRepository.exists`. -/
def exists_catch (A : Type) (body : Except PgErr A) : Except PgErr A :=
  wrap_all A ("Failed to check existence") body

/-- Observable database interaction state of a repository run: the query
texts issued, the number of transactions opened, and the number of
entity-to-row conversions performed. -/
structure RepoSt where
  issued : List String
  txCount : Nat
  conversions : Nat
deriving DecidableEq

/-- `BaseRepository.delete_by` with its effects: empty conditions raise
`RepositoryError` before the `try` block, so before any query is built or
issued; otherwise the query is issued and the affected-row count of the
execution oracle is returned. -/
def delete_by_run (V : Type) (schema tbl : String)
    (conds : List (String × Option V)) (execute : String → List V → Nat)
    (db : RepoSt) : RepoSt × Except PgErr Nat :=
  if conds.isEmpty then
    (db, .error (.repositoryErrorNoCause ("Conditions required for delete_by")))
  else
    let q := delete_by_query V schema tbl conds
    ({ db with issued := db.issued ++ [q.1.render] },
     .ok (execute q.1.render q.2))

/-- `BaseRepository.create_many` with its effects: an empty entity list
returns `[]` before the `try` block — before any conversion, transaction
or SQL; otherwise every entity is converted, one transaction is opened and
the shared `INSERT` query (columns taken from the first row) is executed
once per row, collecting the rows the fetch oracle returns. -/
def create_many_run (E V : Type) (schema tbl : String)
    (to_row : E → List (String × V))
    (fetch : List V → Option (List (String × V)))
    (entities : List E) (db : RepoSt) :
    RepoSt × Except PgErr (List (List (String × V))) :=
  if entities.isEmpty then (db, .ok [])
  else
    let rows := entities.map to_row
    let columns := (rows.headD []).map Prod.fst
    let q := insert_query schema tbl columns
    ({ db with
        issued := db.issued ++ rows.map (fun _ => q.render),
        txCount := db.txCount + 1,
        conversions := db.conversions + entities.length },
     .ok (rows.filterMap (fun r => fetch (r.map Prod.snd))))

end BaseRepository

namespace SchemaManager

/-- `SchemaManager.create_schema`: the schema name is interpolated into the
statement text by an f-string. -/
def create_schema_query (schema_name : String) (if_not_exists : Bool) : String :=
  if if_not_exists then ("CREATE SCHEMA IF NOT EXISTS ") ++ schema_name
  else ("CREATE SCHEMA ") ++ schema_name

/-- `SchemaManager.drop_table`: parts joined by a space, with
`f"{schema}.{table_name}"` interpolated into the statement text. -/
def drop_table_query (table_name schema : String) (cascade if_exists : Bool) :
    String :=
  sepConcat (" ")
    ([("DROP TABLE")]
      ++ (if if_exists then [("IF EXISTS")] else [])
      ++ [schema ++ (".") ++ table_name]
      ++ (if cascade then [("CASCADE")] else []))

end SchemaManager

namespace MigrationManager

/-- Persistent state touched by migrations: the `name` column of the
bookkeeping table, and the cumulative database effects of executed
migration SQL. -/
structure MigSt where
  applied : List String
  executed : List String
deriving DecidableEq

/-- `MigrationManager.is_applied`: the `SELECT EXISTS` probe on the
bookkeeping table. -/
def is_applied (st : MigSt) (migration_name : String) : Bool :=
  st.applied.contains migration_name

/-- `MigrationManager.run_migration`: skip when already applied (returning
`false`), otherwise run the migration SQL and the bookkeeping insert in
one transaction (returning `true`).  `tx_ok` models whether the
transaction body succeeds; on failure the transaction rolls back, leaving
the state unchanged, and the error propagates. -/
def run_migration (st : MigSt) (migration_name sql_content : String)
    (skip_if_applied : Bool) (tx_ok : Bool) : MigSt × Except Unit Bool :=
  if skip_if_applied && is_applied st migration_name then (st, .ok false)
  else if tx_ok then
    ({ applied := st.applied ++ [migration_name],
       executed := st.executed ++ [sql_content] }, .ok true)
  else (st, .error ())

end MigrationManager

namespace ConnectionPoolSingleton

/-- Process-local state of the `ConnectionPoolSingleton` machinery:
`instanceId` is `cls._instance` (`none` when unset), `initializedFlag` the
`_initialized` flag, `poolPid` the module-level `_pool_pid`, `config`,
`pool` and `closedFlag` the instance attributes (`pool` holds the identity
of the underlying `ConnectionPool`), `nextId` a fresh-identity counter,
and `closedPools` the log of underlying pools on which `close()` was
invoked. -/
structure PoolSt (Cfg : Type) where
  instanceId : Option Nat
  initializedFlag : Bool
  poolPid : Option Nat
  config : Option Cfg
  pool : Option Nat
  closedFlag : Bool
  nextId : Nat
  closedPools : List Nat

/-- `ConnectionPoolSingleton.__new__` running in process `pid`: on a PID
mismatch the singleton reference is discarded — dropping the instance and
its pool reference without invoking close — and then a fresh instance is
allocated when none exists, recording the current PID. -/
def new (Cfg : Type) (pid : Nat) (st : PoolSt Cfg) : PoolSt Cfg :=
  let st1 :=
    match st.poolPid with
    | some p =>
        if p ≠ pid then
          { st with instanceId := none, initializedFlag := false,
                    poolPid := none, config := none, pool := none,
                    closedFlag := false }
        else st
    | none => st
  match st1.instanceId with
  | none =>
      { st1 with instanceId := some st1.nextId, nextId := st1.nextId + 1,
                 poolPid := some pid }
  | some _ => st1

/-- `ConnectionPoolSingleton.__init__`: re-initialization is a no-op; a
first initialization without a configuration fails; otherwise
`_create_pool` builds the underlying pool (`pool_ok` models whether the
underlying `ConnectionPool` comes up; on failure the partial pool is torn
down, `_pool` stays `None` and the error propagates). -/
def init (Cfg : Type) (config : Option Cfg) (pool_ok : Bool)
    (st : PoolSt Cfg) : PoolSt Cfg × Except PgErr Unit :=
  if st.initializedFlag then (st, .ok ())
  else
    match config with
    | none =>
        (st, .error (.databaseConnectionError
          ("Configuration required for initial pool creation")))
    | some c =>
        if pool_ok then
          ({ st with config := some c, pool := some st.nextId,
                     nextId := st.nextId + 1, closedFlag := false,
                     initializedFlag := true }, .ok ())
        else
          ({ st with config := some c, pool := none, closedFlag := false },
           .error (.databaseConnectionError ("Failed to create connection pool")))

/-- `get_pool(config)` = `ConnectionPoolSingleton(config)`: `__new__`
followed by `__init__` in the current process. -/
def acquire (Cfg : Type) (pid : Nat) (config : Option Cfg) (pool_ok : Bool)
    (st : PoolSt Cfg) : PoolSt Cfg × Except PgErr Unit :=
  init Cfg config pool_ok (new Cfg pid st)

/-- The `pool` property: fails with `DatabaseConnectionError` when no
underlying pool is held. -/
def pool_access (Cfg : Type) (st : PoolSt Cfg) : Except PgErr Nat :=
  match st.pool with
  | none => .error (.databaseConnectionError ("Connection pool not initialized"))
  | some p => .ok p

/-- `ConnectionPoolSingleton.close`: only acts when a pool is held and the
manager is not yet closed; it marks the manager closed, drops the pool
reference and invokes close on the underlying pool (logged in
`closedPools`). -/
def close (Cfg : Type) (st : PoolSt Cfg) : PoolSt Cfg :=
  match st.pool with
  | some p =>
      if st.closedFlag then st
      else
        { st with closedFlag := true, pool := none,
                  closedPools := st.closedPools ++ [p] }
  | none => st

end ConnectionPoolSingleton

open BaseRepository SchemaManager MigrationManager

theorem string_append_assoc (a b c : String) : (a ++ b) ++ c = a ++ (b ++ c) := by
  rcases a with ⟨da⟩
  rcases b with ⟨db⟩
  rcases c with ⟨dc⟩
  show String.mk ((da ++ db) ++ dc) = String.mk (da ++ (db ++ dc))
  rw [List.append_assoc]

theorem merge_head (a b ab : String) (h : a ++ b = ab) (x : String) :
    a ++ (b ++ x) = ab ++ x := by
  rw [← h, ← string_append_assoc]

theorem render_sqlJoin (sep : String) (ps : List Sql) :
    (sqlJoin sep ps).render = sepConcat sep (ps.map Sql.render) := by
  induction ps with
  | nil => rfl
  | cons p rest ih =>
      cases rest with
      | nil => rfl
      | cons q r =>
          simp only [sqlJoin, sepConcat, Sql.render, List.map] at *
          rw [ih]

theorem map_render_ident (columns : List String) :
    (columns.map Sql.ident).map Sql.render = columns.map quoteIdent := by
  induction columns with
  | nil => rfl
  | cons c cs ih => simp_all [Sql.render]

theorem map_render_set (columns : List String) :
    (columns.map (fun c => Sql.seq (Sql.ident c) (Sql.raw (" = %s")))).map
        Sql.render
      = columns.map (fun c => quoteIdent c ++ " = %s") := by
  induction columns with
  | nil => rfl
  | cons c cs ih => simp_all [Sql.render]

theorem map_render_placeholder (columns : List String) :
    (columns.map (fun _ => Sql.raw ("%s"))).map Sql.render
      = columns.map (fun _ => ("%s" : String)) := by
  induction columns with
  | nil => rfl
  | cons c cs ih => simp_all [Sql.render]

theorem map_render_cond (V : Type) (conds : List (String × Option V)) :
    (conds.map (cond_sql V)).map Sql.render = conds.map (cond_text V) := by
  induction conds with
  | nil => rfl
  | cons p ps ih =>
      rcases p with ⟨c, val⟩
      cases val <;> simp_all [cond_sql, cond_text, Sql.render]

/-- C1 (counterexample): `find_all(limit=5)` binds no parameter and inlines
the caller-supplied limit value into the query text, and
`create_schema("analytics")` emits the schema name into the statement text
with no identifier quoting at all (the emitted SQL contains no double
quote), so not every caller-supplied value is parameter-bound and not
every identifier is identifier-quoted. -/
theorem C1_counterexample :
    (find_all Int ("public") ("users") (some 5) none none false).2 = []
    ∧ (find_all Int ("public") ("users") (some 5) none none false).1.render
        = "SELECT * FROM \"public\".\"users\" LIMIT 5"
    ∧ create_schema_query ("analytics") true
        = "CREATE SCHEMA IF NOT EXISTS analytics"
    ∧ (('"') ∈ (create_schema_query ("analytics") true).data) = False := by
  exact ⟨rfl, by decide, by decide, by decide⟩

/-- C1 (amended): in the repository operations every identifier is
identifier-quoted and the id, row and condition values are passed as bound
parameters (the query text holds only `%s` markers for them); however the
`limit` and `offset` arguments of `find_all`/`find_by` are inlined into
the query text as literals and are not bound, and the schema operations
`create_schema` and `drop_table` interpolate the schema/table names into
the statement text without identifier quoting. -/
theorem C1_amended (V : Type) (schema tbl pk sname : String) (v : V)
    (conds : List (String × Option V)) (p : String × Option V)
    (ps : List (String × Option V)) (columns : List String)
    (row : List (String × V)) (n m : Int) :
    (find_by_id V schema tbl pk v).1.render
        = "SELECT * FROM " ++ quoteIdent schema ++ "." ++ quoteIdent tbl
          ++ " WHERE " ++ quoteIdent pk ++ " = %s"
    ∧ (find_by_id V schema tbl pk v).2 = [v]
    ∧ (find_all V schema tbl none none none false).1.render
        = "SELECT * FROM " ++ quoteIdent schema ++ "." ++ quoteIdent tbl
    ∧ (find_all V schema tbl (some n) (some m) none false).1.render
        = "SELECT * FROM " ++ quoteIdent schema ++ "." ++ quoteIdent tbl
          ++ " LIMIT " ++ toString n ++ " OFFSET " ++ toString m
    ∧ (find_all V schema tbl (some n) (some m) none false).2 = []
    ∧ (create V schema tbl row).1.render
        = "INSERT INTO " ++ quoteIdent schema ++ "." ++ quoteIdent tbl
          ++ " (" ++ sepConcat (", ") ((row.map Prod.fst).map quoteIdent)
          ++ ") VALUES ("
          ++ sepConcat (", ") ((row.map Prod.fst).map (fun _ => ("%s" : String)))
          ++ ") RETURNING *"
    ∧ (create V schema tbl row).2 = row.map Prod.snd
    ∧ (update_query schema tbl pk columns).render
        = "UPDATE " ++ quoteIdent schema ++ "." ++ quoteIdent tbl
          ++ " SET "
          ++ sepConcat (", ") (columns.map (fun c => quoteIdent c ++ " = %s"))
          ++ " WHERE " ++ quoteIdent pk ++ " = %s RETURNING *"
    ∧ (delete V schema tbl pk v).1.render
        = "DELETE FROM " ++ quoteIdent schema ++ "." ++ quoteIdent tbl
          ++ " WHERE " ++ quoteIdent pk ++ " = %s"
    ∧ (delete V schema tbl pk v).2 = [v]
    ∧ (delete_by_query V schema tbl conds).1.render
        = "DELETE FROM " ++ quoteIdent schema ++ "." ++ quoteIdent tbl
          ++ " WHERE " ++ sepConcat (" AND ") (conds.map (cond_text V))
    ∧ (delete_by_query V schema tbl conds).2 = cond_values V conds
    ∧ (find_by V schema tbl (p :: ps) none none none false).1.render
        = "SELECT * FROM " ++ quoteIdent schema ++ "." ++ quoteIdent tbl
          ++ " WHERE " ++ sepConcat (" AND ") ((p :: ps).map (cond_text V))
    ∧ (find_by V schema tbl (p :: ps) none none none false).2
        = cond_values V (p :: ps)
    ∧ (count V schema tbl (p :: ps)).1.render
        = "SELECT COUNT(*) FROM " ++ quoteIdent schema ++ "." ++ quoteIdent tbl
          ++ " WHERE " ++ sepConcat (" AND ") ((p :: ps).map (cond_text V))
    ∧ (count V schema tbl []).1.render
        = "SELECT COUNT(*) FROM " ++ quoteIdent schema ++ "." ++ quoteIdent tbl
    ∧ (exists_q V schema tbl pk v).1.render
        = "SELECT EXISTS(SELECT 1 FROM " ++ quoteIdent schema ++ "."
          ++ quoteIdent tbl ++ " WHERE " ++ quoteIdent pk ++ " = %s)"
    ∧ (exists_q V schema tbl pk v).2 = [v]
    ∧ create_schema_query sname true = "CREATE SCHEMA IF NOT EXISTS " ++ sname
    ∧ create_schema_query sname false = "CREATE SCHEMA " ++ sname
    ∧ drop_table_query tbl sname false true
        = "DROP TABLE IF EXISTS " ++ sname ++ "." ++ tbl := by
  refine ⟨?_, rfl, ?_, ?_, rfl, ?_, rfl, ?_, ?_, rfl, ?_, rfl, ?_, rfl, ?_,
    ?_, ?_, rfl, rfl, rfl, ?_⟩
  · simp [find_by_id, qualified_table, Sql.render, string_append_assoc]
  · simp [find_all, order_part, limit_part, offset_part, sqlJoin,
      qualified_table, Sql.render, string_append_assoc]
  · simp only [find_all, order_part, limit_part, offset_part, sqlJoin,
      qualified_table, Sql.render, List.nil_append, List.append_nil,
      List.cons_append, List.singleton_append]
    simp only [string_append_assoc]
    rw [merge_head (" ") ("OFFSET ") (" OFFSET ") rfl,
      merge_head (" ") ("LIMIT ") (" LIMIT ") rfl]
  · simp only [create, insert_query, qualified_table, Sql.render,
      render_sqlJoin, map_render_ident, map_render_placeholder]
    simp [string_append_assoc]
  · simp only [update_query, qualified_table, Sql.render, render_sqlJoin,
      map_render_set]
    simp [string_append_assoc]
  · simp [delete, qualified_table, Sql.render, string_append_assoc]
  · simp only [delete_by_query, qualified_table, Sql.render, render_sqlJoin,
      map_render_cond]
    simp [string_append_assoc]
  · simp only [find_by, List.isEmpty, Bool.false_eq_true, if_false, sqlJoin,
      Sql.render, qualified_table, render_sqlJoin, map_render_cond]
    simp [string_append_assoc]
  · simp only [count, List.isEmpty, Bool.false_eq_true, if_false, Sql.render,
      qualified_table, render_sqlJoin, map_render_cond]
    simp [string_append_assoc]
  · simp [count, qualified_table, Sql.render, string_append_assoc]
  · simp [exists_q, qualified_table, Sql.render, string_append_assoc]
  · simp only [drop_table_query, if_true, if_false, List.nil_append,
      List.append_nil, List.cons_append, List.singleton_append, sepConcat]
    rw [merge_head (" ") ("IF EXISTS") (" IF EXISTS") rfl,
      merge_head ("DROP TABLE") (" IF EXISTS") ("DROP TABLE IF EXISTS") rfl,
      merge_head ("DROP TABLE IF EXISTS") (" ") ("DROP TABLE IF EXISTS ") rfl]
    simp [string_append_assoc]

/-- C2: for non-empty conditions in `find_by` (and `count`, `delete_by`),
every column bound to `None` contributes an `IS NULL` predicate (never
`= NULL`), every column bound to a non-`None` value contributes `= %s`
with the value among the bound parameters, the predicates are joined with
`AND`, and `find_by` with empty conditions delegates to `find_all`. -/
theorem C2_null_conditions (V : Type) (schema tbl : String)
    (conds : List (String × Option V)) (h : conds ≠ [])
    (limit offset : Option Int) (ob : Option String) (od : Bool) :
    (∀ c : String, cond_text V (c, none) = quoteIdent c ++ " IS NULL")
    ∧ (∀ (c : String) (x : V), cond_text V (c, some x) = quoteIdent c ++ " = %s")
    ∧ (find_by V schema tbl conds none none none false).1.render
        = "SELECT * FROM " ++ quoteIdent schema ++ "." ++ quoteIdent tbl
          ++ " WHERE " ++ sepConcat (" AND ") (conds.map (cond_text V))
    ∧ (find_by V schema tbl conds none none none false).2 = cond_values V conds
    ∧ find_by V schema tbl [] limit offset ob od
        = find_all V schema tbl limit offset ob od
    ∧ (count V schema tbl conds).1.render
        = "SELECT COUNT(*) FROM " ++ quoteIdent schema ++ "." ++ quoteIdent tbl
          ++ " WHERE " ++ sepConcat (" AND ") (conds.map (cond_text V))
    ∧ (count V schema tbl conds).2 = cond_values V conds
    ∧ (delete_by_query V schema tbl conds).2 = cond_values V conds := by
  rcases conds with _ | ⟨p, ps⟩
  · exact absurd rfl h
  · refine ⟨fun c => rfl, fun c x => rfl, ?_, rfl, rfl, ?_, rfl, rfl⟩
    · simp only [find_by, List.isEmpty, Bool.false_eq_true, if_false,
        sqlJoin, Sql.render, qualified_table, render_sqlJoin, map_render_cond]
      simp [string_append_assoc]
    · simp only [count, List.isEmpty, Bool.false_eq_true, if_false,
        Sql.render, qualified_table, render_sqlJoin, map_render_cond]
      simp [string_append_assoc]

/-- C2 witness: a concrete two-column condition map, one value and one
`None`. -/
theorem C2_null_conditions_witness :
    (([(("a"), some (1 : Int)), (("b"), none)] : List (String × Option Int)) ≠ [])
    ∧ (find_by Int ("public") ("users")
        ([(("a"), some (1 : Int)), (("b"), none)]) none none none false).1.render
        = "SELECT * FROM \"public\".\"users\" WHERE \"a\" = %s AND \"b\" IS NULL"
    ∧ (find_by Int ("public") ("users")
        ([(("a"), some (1 : Int)), (("b"), none)]) none none none false).2 = [1] := by
  have h := C2_null_conditions Int ("public") ("users")
    ([(("a"), some (1 : Int)), (("b"), none)]) (by decide) none none none false
  refine ⟨by decide, ?_, ?_⟩
  · rw [h.2.2.1]
    decide
  · rw [h.2.2.2.1]
    decide

/-- C3: running a not-yet-applied migration with `skip_if_applied` returns
`applied` (`true`), running it again returns `skipped` (`false`), the
migration SQL executes exactly once, and the SQL and the bookkeeping
insert land atomically — when the transaction body fails, neither effect
persists. -/
theorem C3_run_migration_twice (st : MigSt) (mname msql : String)
    (h : is_applied st mname = false) :
    (run_migration st mname msql true true).2 = .ok true
    ∧ (run_migration (run_migration st mname msql true true).1
        mname msql true true).2 = .ok false
    ∧ (run_migration (run_migration st mname msql true true).1
        mname msql true true).1 = (run_migration st mname msql true true).1
    ∧ (run_migration st mname msql true true).1.executed
        = st.executed ++ [msql]
    ∧ (run_migration st mname msql true true).1.applied
        = st.applied ++ [mname]
    ∧ run_migration st mname msql true false = (st, .error ()) := by
  have h2 : is_applied (MigSt.mk (st.applied ++ [mname])
      (st.executed ++ [msql])) mname = true := by
    simp [is_applied, List.elem_eq_mem]
  simp [run_migration, h, h2]

/-- C3 witness: a fresh migration state and a named migration. -/
theorem C3_run_migration_twice_witness :
    is_applied ⟨[], []⟩ ("m1") = false
    ∧ (run_migration ⟨[], []⟩ ("m1") ("create table t1") true true).2 = .ok true
    ∧ (run_migration (run_migration ⟨[], []⟩ ("m1") ("create table t1")
        true true).1 ("m1") ("create table t1") true true).2 = .ok false
    ∧ (run_migration ⟨[], []⟩ ("m1") ("create table t1") true true).1.executed
        = [("create table t1")] := by
  have h := C3_run_migration_twice ⟨[], []⟩ ("m1") ("create table t1")
    (by decide)
  exact ⟨by decide, h.1, h.2.1, h.2.2.2.1⟩

/-- C4: with a pool created in process `pidA`, the next acquisition in a
forked child `pidB` first discards the pool reference without closing it
(`new` leaves the close log untouched) and then creates a brand-new
underlying pool, distinct from the parent's pool, with close never invoked
on the parent's pool. -/
theorem C4_fork_safety (Cfg : Type) (c : Cfg) (st : ConnectionPoolSingleton.PoolSt Cfg)
    (pidA pidB pA : Nat) (h1 : st.poolPid = some pidA) (h2 : pidB ≠ pidA)
    (h3 : st.pool = some pA) (h4 : pA < st.nextId) :
    (ConnectionPoolSingleton.new Cfg pidB st).pool = none
    ∧ (ConnectionPoolSingleton.new Cfg pidB st).closedPools = st.closedPools
    ∧ (ConnectionPoolSingleton.acquire Cfg pidB (some c) true st).2 = .ok ()
    ∧ (ConnectionPoolSingleton.acquire Cfg pidB (some c) true st).1.pool
        = some (st.nextId + 1)
    ∧ pA ≠ st.nextId + 1
    ∧ (ConnectionPoolSingleton.acquire Cfg pidB (some c) true st).1.closedPools
        = st.closedPools := by
  have h2' : pidA ≠ pidB := fun hh => h2 hh.symm
  refine ⟨?_, ?_, ?_, ?_, by omega, ?_⟩ <;>
    simp [ConnectionPoolSingleton.acquire, ConnectionPoolSingleton.new,
      ConnectionPoolSingleton.init, h1, h2', h3]

/-- C4 witness: pool id 1 created in pid 100 with fresh-id counter 2; the
child pid 200 acquires with config 7. -/
theorem C4_fork_safety_witness :
    (⟨some 0, true, some 100, some 7, some 1, false, 2, []⟩ :
        ConnectionPoolSingleton.PoolSt Nat).poolPid = some 100
    ∧ (200 : Nat) ≠ 100
    ∧ (⟨some 0, true, some 100, some 7, some 1, false, 2, []⟩ :
        ConnectionPoolSingleton.PoolSt Nat).pool = some 1
    ∧ (1 : Nat) < 2
    ∧ (ConnectionPoolSingleton.acquire Nat 200 (some 7) true
        ⟨some 0, true, some 100, some 7, some 1, false, 2, []⟩).1.pool = some 3
    ∧ (ConnectionPoolSingleton.acquire Nat 200 (some 7) true
        ⟨some 0, true, some 100, some 7, some 1, false, 2, []⟩).1.closedPools
        = [] := by
  have h := C4_fork_safety Nat 7
    ⟨some 0, true, some 100, some 7, some 1, false, 2, []⟩ 100 200 1
    rfl (by decide) rfl (by decide)
  exact ⟨rfl, by decide, rfl, by decide, h.2.2.2.1, h.2.2.2.2.2⟩

/-- C5: once the singleton has been created and initialized, acquiring it
again in the same process with any other configuration (and any outcome
the underlying pool constructor would have had) returns the same instance
backed by the same pool, leaving the state — including the stored first
configuration — unchanged. -/
theorem C5_first_writer_wins (Cfg : Type) (st : ConnectionPoolSingleton.PoolSt Cfg)
    (pid i : Nat) (c2 : Cfg) (pool_ok : Bool)
    (h1 : st.instanceId = some i) (h2 : st.initializedFlag = true)
    (h3 : st.poolPid = some pid) :
    ConnectionPoolSingleton.acquire Cfg pid (some c2) pool_ok st = (st, .ok ())
    ∧ (ConnectionPoolSingleton.acquire Cfg pid (some c2) pool_ok st).1.pool
        = st.pool
    ∧ (ConnectionPoolSingleton.acquire Cfg pid (some c2) pool_ok st).1.config
        = st.config := by
  refine ⟨?_, ?_, ?_⟩ <;>
    simp [ConnectionPoolSingleton.acquire, ConnectionPoolSingleton.new,
      ConnectionPoolSingleton.init, h1, h2, h3]

/-- C5 witness: a pool created with config 7 in pid 42; a second
acquisition with config 9 returns the unchanged state. -/
theorem C5_first_writer_wins_witness :
    (⟨some 0, true, some 42, some 7, some 1, false, 2, []⟩ :
        ConnectionPoolSingleton.PoolSt Nat).instanceId = some 0
    ∧ (⟨some 0, true, some 42, some 7, some 1, false, 2, []⟩ :
        ConnectionPoolSingleton.PoolSt Nat).initializedFlag = true
    ∧ ConnectionPoolSingleton.acquire Nat 42 (some 9) true
        ⟨some 0, true, some 42, some 7, some 1, false, 2, []⟩
        = (⟨some 0, true, some 42, some 7, some 1, false, 2, []⟩, .ok ())
    ∧ (ConnectionPoolSingleton.acquire Nat 42 (some 9) true
        ⟨some 0, true, some 42, some 7, some 1, false, 2, []⟩).1.config
        = some 7 := by
  have h := C5_first_writer_wins Nat
    ⟨some 0, true, some 42, some 7, some 1, false, 2, []⟩ 42 0 9 true
    rfl rfl rfl
  exact ⟨rfl, rfl, h.1, by rw [h.1]⟩

/-- C8: after a successful `close()` the pool reference is dropped and the
underlying pool's close has been invoked once; a further `close()` is a
no-op (no state change, no second close of the underlying pool), and any
access through the `pool` property fails with `DatabaseConnectionError`. -/
theorem C8_close_idempotent (Cfg : Type) (st : ConnectionPoolSingleton.PoolSt Cfg)
    (p : Nat) (h1 : st.pool = some p) (h2 : st.closedFlag = false) :
    ConnectionPoolSingleton.close Cfg (ConnectionPoolSingleton.close Cfg st)
        = ConnectionPoolSingleton.close Cfg st
    ∧ (ConnectionPoolSingleton.close Cfg st).closedPools
        = st.closedPools ++ [p]
    ∧ (ConnectionPoolSingleton.close Cfg
        (ConnectionPoolSingleton.close Cfg st)).closedPools
        = st.closedPools ++ [p]
    ∧ ConnectionPoolSingleton.pool_access Cfg (ConnectionPoolSingleton.close Cfg st)
        = .error (.databaseConnectionError ("Connection pool not initialized")) := by
  refine ⟨?_, ?_, ?_, ?_⟩ <;>
    simp [ConnectionPoolSingleton.close, ConnectionPoolSingleton.pool_access,
      h1, h2]

/-- C8 witness: an open pool with id 3. -/
theorem C8_close_idempotent_witness :
    (⟨some 0, true, some 42, some 7, some 3, false, 4, []⟩ :
        ConnectionPoolSingleton.PoolSt Nat).pool = some 3
    ∧ (⟨some 0, true, some 42, some 7, some 3, false, 4, []⟩ :
        ConnectionPoolSingleton.PoolSt Nat).closedFlag = false
    ∧ ConnectionPoolSingleton.close Nat (ConnectionPoolSingleton.close Nat
        ⟨some 0, true, some 42, some 7, some 3, false, 4, []⟩)
        = ConnectionPoolSingleton.close Nat
            ⟨some 0, true, some 42, some 7, some 3, false, 4, []⟩
    ∧ ConnectionPoolSingleton.pool_access Nat (ConnectionPoolSingleton.close Nat
        ⟨some 0, true, some 42, some 7, some 3, false, 4, []⟩)
        = .error (.databaseConnectionError ("Connection pool not initialized")) := by
  have h := C8_close_idempotent Nat
    ⟨some 0, true, some 42, some 7, some 3, false, 4, []⟩ 3 rfl rfl
  exact ⟨rfl, rfl, h.1, h.2.2.2⟩

/-- C6 (counterexample): `find_by_id` has no `except RepositoryError:
raise` clause, so a `RepositoryError` escaping its body does not propagate
unchanged — it is wrapped a second time in a fresh `RepositoryError`
carrying the original as cause. -/
theorem C6_counterexample :
    find_by_id_catch Nat (.error (.repositoryErrorNoCause ("boom")))
        = .error (.repositoryError ("Failed to find by id")
            (.repositoryErrorNoCause ("boom")))
    ∧ find_by_id_catch Nat (.error (.repositoryErrorNoCause ("boom")))
        ≠ .error (.repositoryErrorNoCause ("boom")) := by
  exact ⟨rfl, by simp [find_by_id_catch, wrap_all]⟩

/-- C6 (amended): every public repository operation rewraps an underlying
error as `RepositoryError` carrying the original cause, but only `create`
and `update` let an error that is already a `RepositoryError` propagate
unchanged; the remaining operations (`find_by_id`, `find_all`, `find_by`,
`create_many`, `delete`, `delete_by`, `count`, `exists`) wrap every
escaping error — a `RepositoryError` included — a second time. -/
theorem C6_amended (A : Type) (a : A) (m s : String) (e inner : PgErr) :
    create_catch A (.ok a) = .ok a
    ∧ find_by_id_catch A (.ok a) = .ok a
    ∧ create_catch A (.error (.repositoryError m inner))
        = .error (.repositoryError m inner)
    ∧ create_catch A (.error (.repositoryErrorNoCause m))
        = .error (.repositoryErrorNoCause m)
    ∧ update_catch A (.error (.repositoryError m inner))
        = .error (.repositoryError m inner)
    ∧ update_catch A (.error (.repositoryErrorNoCause m))
        = .error (.repositoryErrorNoCause m)
    ∧ create_catch A (.error (.driverError s))
        = .error (.repositoryError ("Failed to create entity") (.driverError s))
    ∧ update_catch A (.error (.driverError s))
        = .error (.repositoryError ("Failed to update entity") (.driverError s))
    ∧ find_by_id_catch A (.error e)
        = .error (.repositoryError ("Failed to find by id") e)
    ∧ find_all_catch A (.error e)
        = .error (.repositoryError ("Failed to find all") e)
    ∧ find_by_catch A (.error e)
        = .error (.repositoryError ("Failed to find by conditions") e)
    ∧ create_many_catch A (.error e)
        = .error (.repositoryError ("Failed to create entities") e)
    ∧ delete_catch A (.error e)
        = .error (.repositoryError ("Failed to delete entity") e)
    ∧ delete_by_catch A (.error e)
        = .error (.repositoryError ("Failed to delete by conditions") e)
    ∧ count_catch A (.error e)
        = .error (.repositoryError ("Failed to count") e)
    ∧ exists_catch A (.error e)
        = .error (.repositoryError ("Failed to check existence") e) := by
  exact ⟨rfl, rfl, rfl, rfl, rfl, rfl, rfl, rfl, rfl, rfl, rfl, rfl, rfl,
    rfl, rfl, rfl⟩

/-- C7: `update` fails with `RepositoryError` when the primary key is
absent from the converted row; with the primary key present, the `SET`
clause is built only from the remaining columns (the primary key never
appears among them) while the primary key goes into the `WHERE` clause,
and a fetch that matches no row fails with the not-found
`RepositoryError`. -/
theorem C7_update_primary_key (V : Type) (schema tbl pk : String)
    (row : List (String × V))
    (fetch_one : Sql → List V → Option (List (String × V))) :
    (lookup_key V pk row = none →
      update_run V schema tbl pk row fetch_one
        = .error (.repositoryErrorNoCause
            ("Entity must have " ++ pk ++ " for update")))
    ∧ pk ∉ (pop_key V pk row).map Prod.fst
    ∧ (∀ pk_value, lookup_key V pk row = some pk_value →
        update V schema tbl pk row
          = some (update_query schema tbl pk ((pop_key V pk row).map Prod.fst),
              (pop_key V pk row).map Prod.snd ++ [pk_value]))
    ∧ (∀ pk_value, lookup_key V pk row = some pk_value →
        fetch_one (update_query schema tbl pk ((pop_key V pk row).map Prod.fst))
            ((pop_key V pk row).map Prod.snd ++ [pk_value]) = none →
        update_run V schema tbl pk row fetch_one
          = .error (.repositoryErrorNoCause
              ("Entity with " ++ pk ++ " not found")))
    ∧ (∀ pk_value r, lookup_key V pk row = some pk_value →
        fetch_one (update_query schema tbl pk ((pop_key V pk row).map Prod.fst))
            ((pop_key V pk row).map Prod.snd ++ [pk_value]) = some r →
        update_run V schema tbl pk row fetch_one = .ok r) := by
  refine ⟨?_, ?_, ?_, ?_, ?_⟩
  · intro hnone
    simp [update_run, update, hnone]
  · simp only [pop_key, List.mem_map, List.mem_filter]
    rintro ⟨q, ⟨hq, hq2⟩, hq3⟩
    simp [hq3] at hq2
  · intro pk_value hsome
    simp [update, hsome]
  · intro pk_value hsome hfetch
    simp [update_run, update, hsome, hfetch]
  · intro pk_value r hsome hfetch
    simp [update_run, update, hsome, hfetch]

/-- C7 witness: a row carrying the primary key `id` = 7 against a fetch
oracle that matches no row. -/
theorem C7_update_primary_key_witness :
    lookup_key Int ("id") ([(("id"), (7 : Int)), (("age"), 3)]) = some 7
    ∧ update_run Int ("public") ("users") ("id")
        ([(("id"), (7 : Int)), (("age"), 3)]) (fun _ _ => none)
        = .error (.repositoryErrorNoCause
            ("Entity with " ++ "id" ++ " not found")) := by
  have h := C7_update_primary_key Int ("public") ("users") ("id")
    ([(("id"), (7 : Int)), (("age"), 3)]) (fun _ _ => none)
  exact ⟨by decide, h.2.2.2.1 7 (by decide) rfl⟩

/-- C9: `delete_by` with empty conditions fails with `RepositoryError`
before any query is built or issued: the database interaction state is
returned unchanged. -/
theorem C9_delete_by_empty (V : Type) (schema tbl : String)
    (execute : String → List V → Nat) (db : RepoSt) :
    delete_by_run V schema tbl [] execute db
      = (db, .error (.repositoryErrorNoCause
          ("Conditions required for delete_by"))) := rfl

/-- C10: `create_many` with an empty entity list returns the empty list
before converting any entity, opening any transaction or issuing any SQL:
the database interaction state (issued queries, transaction count,
conversion count) is returned unchanged. -/
theorem C10_create_many_empty (E V : Type) (schema tbl : String)
    (to_row : E → List (String × V))
    (fetch : List V → Option (List (String × V))) (db : RepoSt) :
    create_many_run E V schema tbl to_row fetch [] db = (db, .ok [])
    ∧ (create_many_run E V schema tbl to_row fetch [] db).1.conversions
        = db.conversions
    ∧ (create_many_run E V schema tbl to_row fetch [] db).1.txCount
        = db.txCount
    ∧ (create_many_run E V schema tbl to_row fetch [] db).1.issued
        = db.issued :=
  ⟨rfl, rfl, rfl, rfl⟩

end PyPGKit
